import Mathlib

/-
Verification of the Adobe Sign / Content Manager integration script
(src/index.js): a linear chain of external calls

  refreshAdobeAccessToken -> downloadAgreementDocument -> createRecord
    -> uploadDocument (WebDAV) -> attachDocument

Each JavaScript function issues one outbound call and continues into the
next stage from the success handler of that call.  We embed the script as
pure Lean functions that, given the outcomes of the external calls (an
oracle `Env`), return the list of observable events (outbound requests and
console logs) the script produces, in order.  Property access on untyped
response payloads is modelled by a small JavaScript value model `JsValue`
with the JavaScript semantics of member and index access (access on
undefined or null throws a TypeError; access of an absent member yields
undefined; indexing a non-empty string yields a one-character string).
-/

namespace AdobeSignCM

/-- Model of an untyped JavaScript/JSON value as the script sees response
payloads. -/
inductive JsValue where
  | undefined : JsValue
  | null : JsValue
  | bool (b : Bool) : JsValue
  | num (n : Int) : JsValue
  | str (s : String) : JsValue
  | arr (elems : List JsValue) : JsValue
  | obj (fields : List (String × JsValue)) : JsValue

/-- A JavaScript runtime error thrown during a success handler. -/
inductive JsError where
  | typeError : JsError
deriving DecidableEq

/-- JavaScript member access `v.key`: throws a TypeError on undefined and
null, looks fields up on objects (absent field gives undefined), and
yields undefined on every other primitive for the member names this
script uses. -/
def getProp : JsValue → String → Except JsError JsValue
  | JsValue.undefined, _ => Except.error JsError.typeError
  | JsValue.null, _ => Except.error JsError.typeError
  | JsValue.obj fields, key => Except.ok ((fields.lookup key).getD JsValue.undefined)
  | _, _ => Except.ok JsValue.undefined

/-- JavaScript index access `v[i]`: throws a TypeError on undefined and
null, indexes arrays and strings (out of range gives undefined; a string
index yields a one-character string), looks the decimal key up on
objects, and yields undefined on the remaining primitives. -/
def getIndex : JsValue → Nat → Except JsError JsValue
  | JsValue.undefined, _ => Except.error JsError.typeError
  | JsValue.null, _ => Except.error JsError.typeError
  | JsValue.arr elems, i => Except.ok ((elems.get? i).getD JsValue.undefined)
  | JsValue.str s, i =>
      Except.ok (((s.data.get? i).map (fun c => JsValue.str (String.singleton c))).getD JsValue.undefined)
  | JsValue.obj fields, i => Except.ok ((fields.lookup (Nat.repr i)).getD JsValue.undefined)
  | _, _ => Except.ok JsValue.undefined

/-- JavaScript string coercion, as used when a value is concatenated into
a URL or header string. -/
def jsToString : JsValue → String
  | JsValue.undefined => "undefined"
  | JsValue.null => "null"
  | JsValue.bool b => if b then "true" else "false"
  | JsValue.num n => toString n
  | JsValue.str s => s
  | JsValue.arr _ => ""
  | JsValue.obj _ => "[object Object]"

/-- JSON string escaping for one character, as performed by
JSON.stringify. -/
def quoteJsonChar (c : Char) : String :=
  if c = Char.ofNat 34 then "\\\""
  else if c = Char.ofNat 92 then "\\\\"
  else if c = Char.ofNat 10 then "\\n"
  else if c = Char.ofNat 13 then "\\r"
  else if c = Char.ofNat 9 then "\\t"
  else String.singleton c

/-- JSON quoting of a string value, as performed by JSON.stringify. -/
def quoteJsonString (s : String) : String :=
  "\"" ++ String.join (s.data.map quoteJsonChar) ++ "\""

mutual

/-- Model of JSON.stringify.  Returns none exactly when JSON.stringify
returns undefined (top-level undefined); fields of an object whose value
is undefined are omitted, and undefined array elements serialize as
null. -/
def jsonStringify : JsValue → Option String
  | JsValue.undefined => none
  | JsValue.null => some "null"
  | JsValue.bool b => some (if b then "true" else "false")
  | JsValue.num n => some (toString n)
  | JsValue.str s => some (quoteJsonString s)
  | JsValue.arr elems => some ("[" ++ jsonStringifyElems elems ++ "]")
  | JsValue.obj fields =>
      some ("\x7b" ++ String.intercalate "," (jsonStringifyFields fields) ++ "\x7d")

/-- Serialized array elements, comma separated. -/
def jsonStringifyElems : List JsValue → String
  | [] => ""
  | [v] => (jsonStringify v).getD "null"
  | v :: rest => (jsonStringify v).getD "null" ++ "," ++ jsonStringifyElems rest

/-- Serialized object members, with undefined-valued members omitted. -/
def jsonStringifyFields : List (String × JsValue) → List String
  | [] => []
  | (key, v) :: rest =>
      match jsonStringify v with
      | none => jsonStringifyFields rest
      | some s => (quoteJsonString key ++ ":" ++ s) :: jsonStringifyFields rest

end

/-- The access `response.data.Results[0].Uri` performed in the success
handler of the record-creation call (src/index.js line 92), applied to
`response.data`. -/
def extractResultsUri (data : JsValue) : Except JsError JsValue := do
  let results ← getProp data "Results"
  let first ← getIndex results 0
  getProp first "Uri"

/-- Whitespace characters skipped by the JSON grammar. -/
def isJsonWs (c : Char) : Bool :=
  c = ' ' || c = Char.ofNat 10 || c = Char.ofNat 13 || c = Char.ofNat 9

/-- Decodes one JSON string escape character. -/
def unescapeJsonChar (c : Char) : Option Char :=
  if c = Char.ofNat 34 then some (Char.ofNat 34)
  else if c = Char.ofNat 92 then some (Char.ofNat 92)
  else if c = '/' then some '/'
  else if c = 'n' then some (Char.ofNat 10)
  else if c = 'r' then some (Char.ofNat 13)
  else if c = 't' then some (Char.ofNat 9)
  else if c = 'b' then some (Char.ofNat 8)
  else if c = 'f' then some (Char.ofNat 12)
  else none

/-- Parses the remainder of a JSON string literal (after the opening
quote), returning the decoded characters and the rest of the input. -/
def parseJsonString : Nat → List Char → Option (List Char × List Char)
  | 0, _ => none
  | _, [] => none
  | fuel + 1, c :: rest =>
      if c = Char.ofNat 34 then some ([], rest)
      else if c = Char.ofNat 92 then
        match rest with
        | [] => none
        | e :: rest2 =>
            match unescapeJsonChar e with
            | none => none
            | some d =>
                match parseJsonString fuel rest2 with
                | none => none
                | some (cs, rem) => some (d :: cs, rem)
      else
        match parseJsonString fuel rest with
        | none => none
        | some (cs, rem) => some (c :: cs, rem)

/-- Parses a nonempty run of decimal digits. -/
def parseJsonDigits : List Char → Option (Nat × List Char)
  | [] => none
  | c :: rest =>
      if c.isDigit then
        match parseJsonDigits rest with
        | some (n, rem) =>
            some (n + (c.toNat - 48) * 10 ^ (rest.length - rem.length), rem)
        | none => some (c.toNat - 48, rest)
      else none

mutual

/-- Fuel-indexed model of JSON.parse on a character list: parses one JSON
value and returns the rest of the input. -/
def parseJsonValue : Nat → List Char → Option (JsValue × List Char)
  | 0, _ => none
  | fuel + 1, input =>
      match input.dropWhile isJsonWs with
      | [] => none
      | c :: rest =>
          if c = 'n' then
            match rest with
            | 'u' :: 'l' :: 'l' :: rem => some (JsValue.null, rem)
            | _ => none
          else if c = 't' then
            match rest with
            | 'r' :: 'u' :: 'e' :: rem => some (JsValue.bool true, rem)
            | _ => none
          else if c = 'f' then
            match rest with
            | 'a' :: 'l' :: 's' :: 'e' :: rem => some (JsValue.bool false, rem)
            | _ => none
          else if c = Char.ofNat 34 then
            match parseJsonString fuel rest with
            | none => none
            | some (cs, rem) => some (JsValue.str (String.mk cs), rem)
          else if c = '[' then
            match (rest.dropWhile isJsonWs) with
            | ']' :: rem => some (JsValue.arr [], rem)
            | _ =>
                match parseJsonElems fuel rest with
                | none => none
                | some (elems, rem) => some (JsValue.arr elems, rem)
          else if c = Char.ofNat 123 then
            match (rest.dropWhile isJsonWs) with
            | d :: rem =>
                if d = Char.ofNat 125 then some (JsValue.obj [], rem)
                else
                  match parseJsonMembers fuel rest with
                  | none => none
                  | some (fields, rem2) => some (JsValue.obj fields, rem2)
            | [] => none
          else if c = '-' then
            match parseJsonDigits rest with
            | none => none
            | some (n, rem) => some (JsValue.num (-(n : Int)), rem)
          else if c.isDigit then
            match parseJsonDigits (c :: rest) with
            | none => none
            | some (n, rem) => some (JsValue.num (n : Int), rem)
          else none

/-- Parses a nonempty comma-separated list of JSON array elements followed
by a closing bracket. -/
def parseJsonElems : Nat → List Char → Option (List JsValue × List Char)
  | 0, _ => none
  | fuel + 1, input =>
      match parseJsonValue fuel input with
      | none => none
      | some (v, rem) =>
          match rem.dropWhile isJsonWs with
          | ',' :: rest =>
              match parseJsonElems fuel rest with
              | none => none
              | some (vs, rem2) => some (v :: vs, rem2)
          | ']' :: rest => some ([v], rest)
          | _ => none

/-- Parses a nonempty comma-separated list of JSON object members followed
by a closing brace. -/
def parseJsonMembers : Nat → List Char → Option (List (String × JsValue) × List Char)
  | 0, _ => none
  | fuel + 1, input =>
      match input.dropWhile isJsonWs with
      | c :: rest =>
          if c = Char.ofNat 34 then
            match parseJsonString fuel rest with
            | none => none
            | some (key, rem) =>
                match rem.dropWhile isJsonWs with
                | ':' :: rest2 =>
                    match parseJsonValue fuel rest2 with
                    | none => none
                    | some (v, rem2) =>
                        match rem2.dropWhile isJsonWs with
                        | ',' :: rest3 =>
                            match parseJsonMembers fuel rest3 with
                            | none => none
                            | some (fields, rem3) =>
                                some ((String.mk key, v) :: fields, rem3)
                        | d :: rest3 =>
                            if d = Char.ofNat 125 then some ([(String.mk key, v)], rest3)
                            else none
                        | [] => none
                | _ => none
          else none
      | [] => none

end

/-- Model of JSON.parse: parses the whole input string as one JSON value,
with nothing but whitespace left over, failing (JSON.parse throws) on
invalid input. -/
def parseJson (s : String) : Option JsValue :=
  match parseJsonValue (s.data.length + 1) s.data with
  | none => none
  | some (v, rem) => if rem.dropWhile isJsonWs = [] then some v else none

/-- The base64 alphabet, by 6-bit value. -/
def base64Char (n : Nat) : Char :=
  if n < 26 then Char.ofNat (65 + n)
  else if n < 52 then Char.ofNat (97 + (n - 26))
  else if n < 62 then Char.ofNat (48 + (n - 52))
  else if n = 62 then '+'
  else '/'

/-- Standard base64 encoding of a byte list, with padding, as performed by
Buffer.toString with encoding base64. -/
def base64Encode : List Nat → String
  | [] => ""
  | [b1] =>
      String.mk [base64Char (b1 / 4), base64Char (b1 % 4 * 16)] ++ "=="
  | [b1, b2] =>
      String.mk [base64Char (b1 / 4), base64Char (b1 % 4 * 16 + b2 / 16),
        base64Char (b2 % 16 * 4)] ++ "="
  | b1 :: b2 :: b3 :: rest =>
      String.mk [base64Char (b1 / 4), base64Char (b1 % 4 * 16 + b2 / 16),
        base64Char (b2 % 16 * 4 + b3 / 64), base64Char (b3 % 64)] ++ base64Encode rest

/-- UTF-8 bytes of a string, as produced by Buffer.from on a string. -/
def utf8Bytes (s : String) : List Nat :=
  s.toUTF8.toList.map (fun b => b.toNat)

/-- The environment-derived constants read at the top of src/index.js
(lines 39 to 47), with the source variable names. -/
structure Config where
  adobeSignClientId : String
  adobeSignClientSecret : String
  adobeSignRefreshToken : String
  contentManagerUsername : String
  contentManagerPassword : String
  contentManagerServiceAPIBaseUrl : String
  contentManagerWedDAVUrl : String
  adobeSignBaseUrl : String

/-- src/index.js line 44: the basic-auth header value shared by both
Content Manager API calls. -/
def authorizationHeaderValue (cfg : Config) : String :=
  "Basic " ++ base64Encode (utf8Bytes (cfg.contentManagerUsername ++ ":" ++ cfg.contentManagerPassword))

/-- src/index.js line 50. -/
def escapeCharcters : String := "\x1b"

/-- src/index.js line 51. -/
def resetColor : String := "\x1b[0m"

/-- src/index.js line 52. -/
def cyan : String := escapeCharcters ++ "[36m"

/-- src/index.js line 53. -/
def red : String := escapeCharcters ++ "[31m"

/-- src/index.js line 54. -/
def yellow : String := escapeCharcters ++ "[33m"

/-- src/index.js line 55. -/
def green : String := escapeCharcters ++ "[32m"

/-- src/index.js line 56. -/
def white : String := escapeCharcters ++ "[37m"

/-- src/index.js lines 59 to 62: the fixed record-creation payload. -/
def gblCreateRecordJSON : JsValue :=
  JsValue.obj [("RecordTitle", JsValue.str "Adobe Sign Integration Demo 3"),
    ("RecordRecordType", JsValue.str "Document")]

/-- An axios request configuration as built by the script: method string,
url, header list, optional serialized body and optional response type. -/
structure HttpRequest where
  method : String
  url : String
  headers : List (String × String)
  data : Option String
  responseType : Option String

/-- The error value observed by a catch handler: either the rejection
value of the external call, or a JavaScript error thrown inside the
success handler of the stage. -/
inductive RunError where
  | external (info : String) : RunError
  | thrown (e : JsError) : RunError

/-- One observable step of a run: an outbound axios request, a WebDAV
file write (with the client configuration of src/index.js lines 103 to
112), a colored console status line, or the raw error object logged by a
catch handler. -/
inductive Event where
  | http (req : HttpRequest) : Event
  | webdavPut (baseUrl username password path : String) (content : List Nat) : Event
  | log (color message : String) : Event
  | logError (err : RunError) : Event

/-- Oracle for the outcomes of the five external calls of one run, plus
the value drawn by uuidv4 (src/index.js line 89).  An `Except.ok` field
carries the `data` of the resolved response; an `Except.error` field
carries the rejection of the call (network error or non-2xx status). -/
structure Env where
  refreshResult : Except String JsValue
  downloadResult : Except String (List Nat)
  createResult : Except String JsValue
  uploadResult : Except String Unit
  attachResult : Except String JsValue
  uuid : String

/-- src/index.js line 89: the generated WebDAV upload filename
`uuidv4() + ".pdf"`. -/
def generatedFilename (env : Env) : String :=
  env.uuid ++ ".pdf"

/-- src/index.js lines 134 to 142: the axios configuration of the
document-attach call. -/
def attachDocumentConfig (cfg : Config) (jsonData : JsValue) : HttpRequest where
  method := "POST"
  url := cfg.contentManagerServiceAPIBaseUrl ++ "/Record"
  headers := [("Authorization", authorizationHeaderValue cfg), ("Content-Type", "application/json")]
  data := jsonStringify jsonData
  responseType := none

/-- src/index.js lines 132 to 152: attachDocument issues the POST and
logs the outcome; it is the last stage, nothing follows it. -/
def attachDocument (cfg : Config) (env : Env) (jsonData : JsValue) : List Event :=
  Event.http (attachDocumentConfig cfg jsonData) ::
  match env.attachResult with
  | Except.ok _ =>
      [Event.log green "Document successfully attached to the Content Manager record."]
  | Except.error e =>
      [Event.log red "Error attaching document to the Content Manager record.",
       Event.logError (RunError.external e)]

/-- src/index.js lines 101 to 130: uploadDocument writes the document to
the WebDAV folder at `"/" + filename`; on success it builds
`attachDocumentJSON = {Uri: uri, RecordFilePath: filename}` and calls
attachDocument; on failure it logs and stops. -/
def uploadDocument (cfg : Config) (env : Env) (uri : JsValue) (filename : String)
    (electronicDocument : List Nat) : List Event :=
  Event.webdavPut cfg.contentManagerWedDAVUrl cfg.contentManagerUsername
    cfg.contentManagerPassword ("/" ++ filename) electronicDocument ::
  match env.uploadResult with
  | Except.ok _ =>
      Event.log green "Document successfully transferred to WebDAV folder." ::
      attachDocument cfg env (JsValue.obj [("Uri", uri), ("RecordFilePath", JsValue.str filename)])
  | Except.error e =>
      [Event.log red "Error transferring file to WebDAV folder.",
       Event.logError (RunError.external e)]

/-- src/index.js lines 73 to 81: the axios configuration of the
record-creation call. -/
def createRecordConfig (cfg : Config) (jsonData : JsValue) : HttpRequest where
  method := "post"
  url := cfg.contentManagerServiceAPIBaseUrl ++ "/Record"
  headers := [("Authorization", authorizationHeaderValue cfg), ("Content-Type", "application/json")]
  data := jsonStringify jsonData
  responseType := none

/-- src/index.js lines 71 to 99: createRecord issues the POST; on success
it logs, generates the upload filename, evaluates
`response.data.Results[0].Uri` (a TypeError thrown here rejects into the
same catch handler) and calls uploadDocument; the catch handler logs the
creation error and stops. -/
def createRecord (cfg : Config) (env : Env) (jsonData : JsValue)
    (electronicDocument : List Nat) : List Event :=
  Event.http (createRecordConfig cfg jsonData) ::
  match env.createResult with
  | Except.ok data =>
      Event.log green "New Content Manager record successfully created." ::
      match extractResultsUri data with
      | Except.ok uri =>
          uploadDocument cfg env uri (generatedFilename env) electronicDocument
      | Except.error e =>
          [Event.log red "Error creating Content Manager record.",
           Event.logError (RunError.thrown e)]
  | Except.error e =>
      [Event.log red "Error creating Content Manager record.",
       Event.logError (RunError.external e)]

/-- src/index.js lines 155 to 162: the axios configuration of the
agreement-document download. -/
def downloadAgreementConfig (cfg : Config) (accessToken agreementId : JsValue) : HttpRequest where
  method := "get"
  url := cfg.adobeSignBaseUrl ++ "/api/rest/v6/agreements/" ++ jsToString agreementId
    ++ "/combinedDocument?attachSupportingDocuments=false"
  headers := [("Authorization", "Bearer " ++ jsToString accessToken)]
  data := none
  responseType := some "arraybuffer"

/-- src/index.js lines 154 to 176: downloadAgreementDocument issues the
GET; on success it wraps the bytes and calls createRecord with the fixed
payload; on failure it logs (with the green color code, line 173) and
stops. -/
def downloadAgreementDocument (cfg : Config) (env : Env)
    (accessToken agreementId : JsValue) : List Event :=
  Event.http (downloadAgreementConfig cfg accessToken agreementId) ::
  match env.downloadResult with
  | Except.ok bytes =>
      Event.log green "Document downloaded from Adobe Sign." ::
      createRecord cfg env gblCreateRecordJSON bytes
  | Except.error e =>
      [Event.log green "Error downloading document from Adobe Sign.",
       Event.logError (RunError.external e)]

/-- src/index.js lines 180 to 186: the axios configuration of the OAuth
refresh call. -/
def refreshTokenConfig (cfg : Config) : HttpRequest where
  method := "POST"
  url := cfg.adobeSignBaseUrl ++ "/oauth/refresh?refresh_token=" ++ cfg.adobeSignRefreshToken
    ++ "&client_id=" ++ cfg.adobeSignClientId ++ "&client_secret=" ++ cfg.adobeSignClientSecret
    ++ "&grant_type=refresh_token"
  headers := [("Content-Type", "application/x-www-form-urlencoded")]
  data := none
  responseType := none

/-- src/index.js lines 178 to 199: refreshAdobeAccessToken issues the
POST; on success it reads `response.data.access_token` (a TypeError
thrown here rejects into the catch handler) and calls
downloadAgreementDocument; on failure it logs and stops. -/
def refreshAdobeAccessToken (cfg : Config) (env : Env) (gblAgreementId : JsValue) : List Event :=
  Event.http (refreshTokenConfig cfg) ::
  match env.refreshResult with
  | Except.ok data =>
      Event.log green "Adobe Sign Access Token updated." ::
      match getProp data "access_token" with
      | Except.ok accessToken =>
          downloadAgreementDocument cfg env accessToken gblAgreementId
      | Except.error e =>
          [Event.log red "Error updating Adobe Sign Access Token.",
           Event.logError (RunError.thrown e)]
  | Except.error e =>
      [Event.log red "Error updating Adobe Sign Access Token.",
       Event.logError (RunError.external e)]

/-- Modelled from the axios library (external to this repository): axios
uppercases the configured method string before issuing the request, so
configured methods "post" and "POST" both go on the wire as POST. -/
def axiosMethodName (m : String) : String := String.mk (m.data.map Char.toUpper)

/-- A hexadecimal digit (either case). -/
def isHexChar (c : Char) : Bool :=
  c.isDigit || (97 ≤ c.toNat && c.toNat ≤ 102) || (65 ≤ c.toNat && c.toNat ≤ 70)

/-- Modelled from the uuid library contract (external to this repository):
a version-4 UUID string has five hyphen-separated hex groups of lengths
8, 4, 4, 4 and 12, the version nibble 4 at the start of the third group,
and a variant nibble of 8, 9, a or b at the start of the fourth group. -/
def isUUIDv4 (s : String) : Bool :=
  match s.data.splitOn '-' with
  | [g1, g2, g3, g4, g5] =>
      g1.length = 8 && g2.length = 4 && g3.length = 4 && g4.length = 4 && g5.length = 12 &&
      (g1 ++ g2 ++ g3 ++ g4 ++ g5).all isHexChar &&
      g3.head? = some '4' &&
      (match g4.head? with
       | some c => c = '8' || c = '9' || c = 'a' || c = 'b' || c = 'A' || c = 'B'
       | none => false)
  | _ => false

/-- An error that aborts the process before any stage runs: the fixture
file is missing (readFileSync throws), its contents are not valid JSON
(JSON.parse throws), or the agreement id access throws. -/
inductive StartupError where
  | fileReadError : StartupError
  | jsonParseError : StartupError
  | thrown (e : JsError) : StartupError
deriving DecidableEq

/-- src/index.js lines 204 to 208, the module top level: read the webhook
fixture file, parse it, extract `gblAdobeWebhookJSON.agreement.id`, then
start the chain with refreshAdobeAccessToken.  A failure in any of the
synchronous startup steps throws out of the module (`Except.error`);
events are produced only after all three startup steps succeed.
fixtureFile is none when AdobeSignWebhookExample.json cannot be read. -/
def moduleMain (cfg : Config) (env : Env) (fixtureFile : Option String) :
    Except StartupError (List Event) :=
  match fixtureFile with
  | none => Except.error StartupError.fileReadError
  | some fileContents =>
      match parseJson fileContents with
      | none => Except.error StartupError.jsonParseError
      | some gblAdobeWebhookJSON =>
          match getProp gblAdobeWebhookJSON "agreement" with
          | Except.error e => Except.error (StartupError.thrown e)
          | Except.ok agreement =>
              match getProp agreement "id" with
              | Except.error e => Except.error (StartupError.thrown e)
              | Except.ok gblAgreementId =>
                  Except.ok (refreshAdobeAccessToken cfg env gblAgreementId)

/-- Serialization of an object of two string fields, for reasoning about
the request bodies. -/
theorem jsonStringify_two_str_fields (k1 k2 v1 v2 : String) :
    jsonStringify (JsValue.obj [(k1, JsValue.str v1), (k2, JsValue.str v2)]) =
    some ("\x7b" ++ quoteJsonString k1 ++ ":" ++ quoteJsonString v1 ++ ","
      ++ quoteJsonString k2 ++ ":" ++ quoteJsonString v2 ++ "\x7d") := by
  simp [jsonStringify, jsonStringifyFields, String.intercalate, String.intercalate.go,
    String.append_assoc]

/-- A concrete configuration for witnesses. -/
def cfg0 : Config where
  adobeSignClientId := "client-id-1"
  adobeSignClientSecret := "client-secret-1"
  adobeSignRefreshToken := "refresh-token-1"
  contentManagerUsername := "admin"
  contentManagerPassword := "pass123"
  contentManagerServiceAPIBaseUrl := "https://cm.example.com/CMServiceAPI"
  contentManagerWedDAVUrl := "https://cm.example.com/WebDAV"
  adobeSignBaseUrl := "https://api.adobesign.example"

/-- A concrete record-creation response payload for witnesses. -/
def createResponseData0 : JsValue :=
  JsValue.obj [("Results", JsValue.arr [JsValue.obj [("Uri", JsValue.str "/Records/42")]])]

/-- A concrete environment in which every external call succeeds. -/
def envAllOk : Env where
  refreshResult := Except.ok (JsValue.obj [("access_token", JsValue.str "tok-abc")])
  downloadResult := Except.ok [37, 80, 68, 70]
  createResult := Except.ok createResponseData0
  uploadResult := Except.ok ()
  attachResult := Except.ok (JsValue.obj [])
  uuid := "123e4567-e89b-42d3-a456-426614174000"

/-- A concrete environment in which every external call fails. -/
def envAllErr : Env where
  refreshResult := Except.error "refresh boom"
  downloadResult := Except.error "download boom"
  createResult := Except.error "create boom"
  uploadResult := Except.error "upload boom"
  attachResult := Except.error "attach boom"
  uuid := "123e4567-e89b-42d3-a456-426614174000"

/-- C1: in a run in which each external call succeeds, the full event
trace is exactly the OAuth refresh request, its success log, the
agreement download request, its success log, the record-creation
request, its success log, the WebDAV upload, its success log, the attach
request and its success log, in that order — each stage request appears
only after the success log of its predecessor. -/
theorem c1_stage_order (cfg : Config) (env : Env) (gblAgreementId : JsValue)
    (d1 accessToken : JsValue) (bytes : List Nat) (d2 uri d3 : JsValue)
    (h1 : env.refreshResult = Except.ok d1)
    (h2 : getProp d1 "access_token" = Except.ok accessToken)
    (h3 : env.downloadResult = Except.ok bytes)
    (h4 : env.createResult = Except.ok d2)
    (h5 : extractResultsUri d2 = Except.ok uri)
    (h6 : env.uploadResult = Except.ok ())
    (h7 : env.attachResult = Except.ok d3) :
    refreshAdobeAccessToken cfg env gblAgreementId = [
      Event.http (refreshTokenConfig cfg),
      Event.log green "Adobe Sign Access Token updated.",
      Event.http (downloadAgreementConfig cfg accessToken gblAgreementId),
      Event.log green "Document downloaded from Adobe Sign.",
      Event.http (createRecordConfig cfg gblCreateRecordJSON),
      Event.log green "New Content Manager record successfully created.",
      Event.webdavPut cfg.contentManagerWedDAVUrl cfg.contentManagerUsername
        cfg.contentManagerPassword ("/" ++ generatedFilename env) bytes,
      Event.log green "Document successfully transferred to WebDAV folder.",
      Event.http (attachDocumentConfig cfg (JsValue.obj [("Uri", uri),
        ("RecordFilePath", JsValue.str (generatedFilename env))])),
      Event.log green "Document successfully attached to the Content Manager record." ] := by
  simp [refreshAdobeAccessToken, downloadAgreementDocument, createRecord, uploadDocument,
    attachDocument, h1, h2, h3, h4, h5, h6, h7]

/-- Witness for C1 at a concrete configuration and all-success
environment. -/
theorem c1_stage_order_witness :
    refreshAdobeAccessToken cfg0 envAllOk (JsValue.str "AGR-123") = [
      Event.http (refreshTokenConfig cfg0),
      Event.log green "Adobe Sign Access Token updated.",
      Event.http (downloadAgreementConfig cfg0 (JsValue.str "tok-abc") (JsValue.str "AGR-123")),
      Event.log green "Document downloaded from Adobe Sign.",
      Event.http (createRecordConfig cfg0 gblCreateRecordJSON),
      Event.log green "New Content Manager record successfully created.",
      Event.webdavPut cfg0.contentManagerWedDAVUrl cfg0.contentManagerUsername
        cfg0.contentManagerPassword ("/" ++ generatedFilename envAllOk) [37, 80, 68, 70],
      Event.log green "Document successfully transferred to WebDAV folder.",
      Event.http (attachDocumentConfig cfg0 (JsValue.obj [("Uri", JsValue.str "/Records/42"),
        ("RecordFilePath", JsValue.str (generatedFilename envAllOk))])),
      Event.log green "Document successfully attached to the Content Manager record." ] :=
  c1_stage_order cfg0 envAllOk (JsValue.str "AGR-123")
    (JsValue.obj [("access_token", JsValue.str "tok-abc")]) (JsValue.str "tok-abc")
    [37, 80, 68, 70] createResponseData0 (JsValue.str "/Records/42") (JsValue.obj [])
    rfl rfl rfl rfl rfl rfl rfl

/-- C2: when a stage call fails, the run produces only that stage
request, a red (or, for the download stage, green) error log and the
logged error object, and no subsequent stage request: a refresh failure
yields a three-event run; a download failure stops before record
creation; a creation failure stops before the upload; an upload failure
stops before the attach call. -/
theorem c2_failure_stops_chain (cfg : Config) (env : Env)
    (gblAgreementId accessToken uri jsonData : JsValue)
    (filename : String) (doc : List Nat) (e1 e2 e3 e4 : String)
    (h1 : env.refreshResult = Except.error e1)
    (h2 : env.downloadResult = Except.error e2)
    (h3 : env.createResult = Except.error e3)
    (h4 : env.uploadResult = Except.error e4) :
    refreshAdobeAccessToken cfg env gblAgreementId =
      [Event.http (refreshTokenConfig cfg),
       Event.log red "Error updating Adobe Sign Access Token.",
       Event.logError (RunError.external e1)] ∧
    downloadAgreementDocument cfg env accessToken gblAgreementId =
      [Event.http (downloadAgreementConfig cfg accessToken gblAgreementId),
       Event.log green "Error downloading document from Adobe Sign.",
       Event.logError (RunError.external e2)] ∧
    createRecord cfg env jsonData doc =
      [Event.http (createRecordConfig cfg jsonData),
       Event.log red "Error creating Content Manager record.",
       Event.logError (RunError.external e3)] ∧
    uploadDocument cfg env uri filename doc =
      [Event.webdavPut cfg.contentManagerWedDAVUrl cfg.contentManagerUsername
         cfg.contentManagerPassword ("/" ++ filename) doc,
       Event.log red "Error transferring file to WebDAV folder.",
       Event.logError (RunError.external e4)] := by
  refine ⟨?_, ?_, ?_, ?_⟩
  · simp [refreshAdobeAccessToken, h1]
  · simp [downloadAgreementDocument, h2]
  · simp [createRecord, h3]
  · simp [uploadDocument, h4]

/-- Witness for C2 at a concrete configuration and all-failure
environment. -/
theorem c2_failure_stops_chain_witness :
    refreshAdobeAccessToken cfg0 envAllErr (JsValue.str "AGR-123") =
      [Event.http (refreshTokenConfig cfg0),
       Event.log red "Error updating Adobe Sign Access Token.",
       Event.logError (RunError.external "refresh boom")] ∧
    downloadAgreementDocument cfg0 envAllErr (JsValue.str "tok-abc") (JsValue.str "AGR-123") =
      [Event.http (downloadAgreementConfig cfg0 (JsValue.str "tok-abc") (JsValue.str "AGR-123")),
       Event.log green "Error downloading document from Adobe Sign.",
       Event.logError (RunError.external "download boom")] ∧
    createRecord cfg0 envAllErr gblCreateRecordJSON [37, 80, 68, 70] =
      [Event.http (createRecordConfig cfg0 gblCreateRecordJSON),
       Event.log red "Error creating Content Manager record.",
       Event.logError (RunError.external "create boom")] ∧
    uploadDocument cfg0 envAllErr (JsValue.str "/Records/42") "a.pdf" [37, 80, 68, 70] =
      [Event.webdavPut cfg0.contentManagerWedDAVUrl cfg0.contentManagerUsername
         cfg0.contentManagerPassword ("/" ++ "a.pdf") [37, 80, 68, 70],
       Event.log red "Error transferring file to WebDAV folder.",
       Event.logError (RunError.external "upload boom")] :=
  c2_failure_stops_chain cfg0 envAllErr (JsValue.str "AGR-123") (JsValue.str "tok-abc")
    (JsValue.str "/Records/42") gblCreateRecordJSON "a.pdf" [37, 80, 68, 70]
    "refresh boom" "download boom" "create boom" "upload boom" rfl rfl rfl rfl

/-- C3: a run that reaches the attach stage issues the attach POST with a
body that is exactly the two-field object pairing Uri — the value
extracted from `Results[0].Uri` of the record-creation response — with
RecordFilePath — the upload filename without the leading slash used in
the WebDAV write — and the serialized body consists of exactly those two
members. -/
theorem c3_attach_payload (cfg : Config) (env : Env) (jsonData : JsValue) (doc : List Nat)
    (data uri : JsValue)
    (h1 : env.createResult = Except.ok data)
    (h2 : extractResultsUri data = Except.ok uri)
    (h3 : env.uploadResult = Except.ok ()) :
    createRecord cfg env jsonData doc =
      Event.http (createRecordConfig cfg jsonData) ::
      Event.log green "New Content Manager record successfully created." ::
      Event.webdavPut cfg.contentManagerWedDAVUrl cfg.contentManagerUsername
        cfg.contentManagerPassword ("/" ++ generatedFilename env) doc ::
      Event.log green "Document successfully transferred to WebDAV folder." ::
      attachDocument cfg env (JsValue.obj [("Uri", uri),
        ("RecordFilePath", JsValue.str (generatedFilename env))]) ∧
    (∀ j : JsValue, (attachDocument cfg env j).head? =
        some (Event.http (attachDocumentConfig cfg j))) ∧
    (∀ j : JsValue, (attachDocumentConfig cfg j).data = jsonStringify j) ∧
    (∀ s : String, jsonStringify (JsValue.obj [("Uri", JsValue.str s),
        ("RecordFilePath", JsValue.str (generatedFilename env))]) =
      some ("\x7b" ++ quoteJsonString "Uri" ++ ":" ++ quoteJsonString s ++ ","
        ++ quoteJsonString "RecordFilePath" ++ ":" ++ quoteJsonString (generatedFilename env)
        ++ "\x7d")) := by
  refine ⟨?_, ?_, ?_, ?_⟩
  · simp [createRecord, uploadDocument, h1, h2, h3]
  · intro j
    simp [attachDocument]
  · intro j
    rfl
  · intro s
    exact jsonStringify_two_str_fields "Uri" "RecordFilePath" s (generatedFilename env)

/-- Witness for C3 at a concrete run: the attach body is byte-for-byte
the Uri from record creation paired with the relative upload filename. -/
theorem c3_attach_payload_witness :
    createRecord cfg0 envAllOk gblCreateRecordJSON [37, 80, 68, 70] =
      Event.http (createRecordConfig cfg0 gblCreateRecordJSON) ::
      Event.log green "New Content Manager record successfully created." ::
      Event.webdavPut cfg0.contentManagerWedDAVUrl cfg0.contentManagerUsername
        cfg0.contentManagerPassword ("/" ++ generatedFilename envAllOk) [37, 80, 68, 70] ::
      Event.log green "Document successfully transferred to WebDAV folder." ::
      attachDocument cfg0 envAllOk (JsValue.obj [("Uri", JsValue.str "/Records/42"),
        ("RecordFilePath", JsValue.str (generatedFilename envAllOk))]) ∧
    (∀ j : JsValue, (attachDocument cfg0 envAllOk j).head? =
        some (Event.http (attachDocumentConfig cfg0 j))) ∧
    (∀ j : JsValue, (attachDocumentConfig cfg0 j).data = jsonStringify j) ∧
    (∀ s : String, jsonStringify (JsValue.obj [("Uri", JsValue.str s),
        ("RecordFilePath", JsValue.str (generatedFilename envAllOk))]) =
      some ("\x7b" ++ quoteJsonString "Uri" ++ ":" ++ quoteJsonString s ++ ","
        ++ quoteJsonString "RecordFilePath" ++ ":" ++ quoteJsonString (generatedFilename envAllOk)
        ++ "\x7d")) :=
  c3_attach_payload cfg0 envAllOk gblCreateRecordJSON [37, 80, 68, 70]
    createResponseData0 (JsValue.str "/Records/42") rfl rfl rfl

/-- C4: in a run reaching the upload stage the generated filename is the
value drawn from uuidv4 suffixed with ".pdf": when the uuid library
fulfils its contract of returning a version-4 UUID, the filename is a
version-4 UUID followed by ".pdf", the run uses it for the WebDAV write,
and two runs with distinct uuid draws get distinct filenames. -/
theorem c4_generated_filename (cfg : Config) (env : Env) (jsonData : JsValue)
    (doc : List Nat) (data uri : JsValue)
    (h1 : env.createResult = Except.ok data)
    (h2 : extractResultsUri data = Except.ok uri)
    (h3 : isUUIDv4 env.uuid = true) :
    (∃ u : String, isUUIDv4 u = true ∧ generatedFilename env = u ++ ".pdf") ∧
    createRecord cfg env jsonData doc =
      Event.http (createRecordConfig cfg jsonData) ::
      Event.log green "New Content Manager record successfully created." ::
      uploadDocument cfg env uri (generatedFilename env) doc ∧
    (uploadDocument cfg env uri (generatedFilename env) doc).head? =
      some (Event.webdavPut cfg.contentManagerWedDAVUrl cfg.contentManagerUsername
        cfg.contentManagerPassword ("/" ++ generatedFilename env) doc) ∧
    (∀ env2 : Env, env2.uuid ≠ env.uuid → generatedFilename env2 ≠ generatedFilename env) := by
  refine ⟨⟨env.uuid, h3, rfl⟩, ?_, ?_, ?_⟩
  · simp [createRecord, h1, h2]
  · simp [uploadDocument]
  · intro env2 hne heq
    apply hne
    apply String.ext
    exact List.append_cancel_right (congrArg String.data heq)

/-- Witness for C4 at a concrete run with a concrete version-4 UUID. -/
theorem c4_generated_filename_witness :
    (∃ u : String, isUUIDv4 u = true ∧ generatedFilename envAllOk = u ++ ".pdf") ∧
    createRecord cfg0 envAllOk gblCreateRecordJSON [37, 80, 68, 70] =
      Event.http (createRecordConfig cfg0 gblCreateRecordJSON) ::
      Event.log green "New Content Manager record successfully created." ::
      uploadDocument cfg0 envAllOk (JsValue.str "/Records/42")
        (generatedFilename envAllOk) [37, 80, 68, 70] ∧
    (uploadDocument cfg0 envAllOk (JsValue.str "/Records/42")
        (generatedFilename envAllOk) [37, 80, 68, 70]).head? =
      some (Event.webdavPut cfg0.contentManagerWedDAVUrl cfg0.contentManagerUsername
        cfg0.contentManagerPassword ("/" ++ generatedFilename envAllOk) [37, 80, 68, 70]) ∧
    (∀ env2 : Env, env2.uuid ≠ envAllOk.uuid →
        generatedFilename env2 ≠ generatedFilename envAllOk) :=
  c4_generated_filename cfg0 envAllOk gblCreateRecordJSON [37, 80, 68, 70]
    createResponseData0 (JsValue.str "/Records/42") rfl rfl rfl

/-- C5: after a successful record creation, a failing WebDAV upload ends
the run with exactly the WebDAV write, a red error log and the logged
error — no attach request, no deletion, no retry, no request of any
kind follows; and a failing attach call ends the run with exactly the
attach request, a red error log and the logged error — again nothing
follows, so the created record and any uploaded file are left as they
are. -/
theorem c5_no_compensation (cfg : Config) (env : Env) (jsonData : JsValue)
    (doc : List Nat) (data uri : JsValue) (attachPayload : JsValue) (e e2 : String)
    (h1 : env.createResult = Except.ok data)
    (h2 : extractResultsUri data = Except.ok uri)
    (h3 : env.uploadResult = Except.error e)
    (h4 : env.attachResult = Except.error e2) :
    createRecord cfg env jsonData doc =
      [Event.http (createRecordConfig cfg jsonData),
       Event.log green "New Content Manager record successfully created.",
       Event.webdavPut cfg.contentManagerWedDAVUrl cfg.contentManagerUsername
         cfg.contentManagerPassword ("/" ++ generatedFilename env) doc,
       Event.log red "Error transferring file to WebDAV folder.",
       Event.logError (RunError.external e)] ∧
    attachDocument cfg env attachPayload =
      [Event.http (attachDocumentConfig cfg attachPayload),
       Event.log red "Error attaching document to the Content Manager record.",
       Event.logError (RunError.external e2)] := by
  constructor
  · simp [createRecord, uploadDocument, h1, h2, h3]
  · simp [attachDocument, h4]

/-- Witness for C5: record creation succeeds, the upload and the attach
call fail, and the traces end at the failure with no further request. -/
theorem c5_no_compensation_witness :
    createRecord cfg0
        { envAllErr with createResult := Except.ok createResponseData0 }
        gblCreateRecordJSON [37, 80, 68, 70] =
      [Event.http (createRecordConfig cfg0 gblCreateRecordJSON),
       Event.log green "New Content Manager record successfully created.",
       Event.webdavPut cfg0.contentManagerWedDAVUrl cfg0.contentManagerUsername
         cfg0.contentManagerPassword
         ("/" ++ generatedFilename { envAllErr with createResult := Except.ok createResponseData0 })
         [37, 80, 68, 70],
       Event.log red "Error transferring file to WebDAV folder.",
       Event.logError (RunError.external "upload boom")] ∧
    attachDocument cfg0 { envAllErr with createResult := Except.ok createResponseData0 }
        (JsValue.obj [("Uri", JsValue.str "/Records/42"),
          ("RecordFilePath", JsValue.str "a.pdf")]) =
      [Event.http (attachDocumentConfig cfg0 (JsValue.obj [("Uri", JsValue.str "/Records/42"),
         ("RecordFilePath", JsValue.str "a.pdf")])),
       Event.log red "Error attaching document to the Content Manager record.",
       Event.logError (RunError.external "attach boom")] :=
  c5_no_compensation cfg0 { envAllErr with createResult := Except.ok createResponseData0 }
    gblCreateRecordJSON [37, 80, 68, 70] createResponseData0 (JsValue.str "/Records/42")
    (JsValue.obj [("Uri", JsValue.str "/Records/42"), ("RecordFilePath", JsValue.str "a.pdf")])
    "upload boom" "attach boom" rfl rfl rfl rfl

/-- C6: the record-creation POST and the attach POST go to the identical
endpoint (the service API base followed by /Record) with the identical
header list — the shared basic-auth Authorization value and the JSON
content type — the same absent response type, and methods that differ
only in letter case (both POST once axios uppercases them); the two
request configurations differ only in the serialized JSON payload, the
creation payload being the fixed RecordTitle / RecordRecordType object
and the attach payload the Uri / RecordFilePath object. -/
theorem c6_same_call_path (cfg : Config) (jd1 jd2 : JsValue) (uri : String) (filename : String) :
    (createRecordConfig cfg jd1).url = (attachDocumentConfig cfg jd2).url ∧
    (createRecordConfig cfg jd1).url = cfg.contentManagerServiceAPIBaseUrl ++ "/Record" ∧
    (createRecordConfig cfg jd1).headers = (attachDocumentConfig cfg jd2).headers ∧
    (createRecordConfig cfg jd1).headers =
      [("Authorization", authorizationHeaderValue cfg), ("Content-Type", "application/json")] ∧
    axiosMethodName (createRecordConfig cfg jd1).method = "POST" ∧
    axiosMethodName (attachDocumentConfig cfg jd2).method = "POST" ∧
    (createRecordConfig cfg jd1).responseType = (attachDocumentConfig cfg jd2).responseType ∧
    (createRecordConfig cfg jd1).data = jsonStringify jd1 ∧
    (attachDocumentConfig cfg jd2).data = jsonStringify jd2 ∧
    jsonStringify gblCreateRecordJSON =
      some "\x7b\"RecordTitle\":\"Adobe Sign Integration Demo 3\",\"RecordRecordType\":\"Document\"\x7d" ∧
    jsonStringify (JsValue.obj [("Uri", JsValue.str uri),
        ("RecordFilePath", JsValue.str filename)]) =
      some ("\x7b" ++ quoteJsonString "Uri" ++ ":" ++ quoteJsonString uri ++ ","
        ++ quoteJsonString "RecordFilePath" ++ ":" ++ quoteJsonString filename ++ "\x7d") := by
  refine ⟨rfl, rfl, rfl, rfl, rfl, rfl, rfl, rfl, rfl, by rfl, ?_⟩
  exact jsonStringify_two_str_fields "Uri" "RecordFilePath" uri filename

/-- C7: when the agreement download fails, the run logs the failure with
the green color code — the code every other stage uses for success —
while the refresh, record-creation, upload and attach failure paths log
with the red code, and the download failure still ends the run before
any record-creation request. -/
theorem c7_download_error_color (cfg : Config) (env : Env)
    (accessToken gblAgreementId uri jsonData : JsValue)
    (filename : String) (doc : List Nat) (e1 e2 e3 e4 e5 : String)
    (h1 : env.downloadResult = Except.error e1)
    (h2 : env.refreshResult = Except.error e2)
    (h3 : env.createResult = Except.error e3)
    (h4 : env.uploadResult = Except.error e4)
    (h5 : env.attachResult = Except.error e5) :
    downloadAgreementDocument cfg env accessToken gblAgreementId =
      [Event.http (downloadAgreementConfig cfg accessToken gblAgreementId),
       Event.log green "Error downloading document from Adobe Sign.",
       Event.logError (RunError.external e1)] ∧
    green = "\x1b[32m" ∧ red = "\x1b[31m" ∧ green ≠ red ∧
    (refreshAdobeAccessToken cfg env gblAgreementId).get? 1 =
      some (Event.log red "Error updating Adobe Sign Access Token.") ∧
    (createRecord cfg env jsonData doc).get? 1 =
      some (Event.log red "Error creating Content Manager record.") ∧
    (uploadDocument cfg env uri filename doc).get? 1 =
      some (Event.log red "Error transferring file to WebDAV folder.") ∧
    (attachDocument cfg env jsonData).get? 1 =
      some (Event.log red "Error attaching document to the Content Manager record.") := by
  refine ⟨?_, by rfl, by rfl, by decide, ?_, ?_, ?_, ?_⟩
  · simp [downloadAgreementDocument, h1]
  · simp [refreshAdobeAccessToken, h2]
  · simp [createRecord, h3]
  · simp [uploadDocument, h4]
  · simp [attachDocument, h5]

/-- Witness for C7 at a concrete all-failure environment. -/
theorem c7_download_error_color_witness :
    downloadAgreementDocument cfg0 envAllErr (JsValue.str "tok-abc") (JsValue.str "AGR-123") =
      [Event.http (downloadAgreementConfig cfg0 (JsValue.str "tok-abc") (JsValue.str "AGR-123")),
       Event.log green "Error downloading document from Adobe Sign.",
       Event.logError (RunError.external "download boom")] ∧
    green = "\x1b[32m" ∧ red = "\x1b[31m" ∧ green ≠ red ∧
    (refreshAdobeAccessToken cfg0 envAllErr (JsValue.str "AGR-123")).get? 1 =
      some (Event.log red "Error updating Adobe Sign Access Token.") ∧
    (createRecord cfg0 envAllErr gblCreateRecordJSON [37, 80, 68, 70]).get? 1 =
      some (Event.log red "Error creating Content Manager record.") ∧
    (uploadDocument cfg0 envAllErr (JsValue.str "/Records/42") "a.pdf" [37, 80, 68, 70]).get? 1 =
      some (Event.log red "Error transferring file to WebDAV folder.") ∧
    (attachDocument cfg0 envAllErr gblCreateRecordJSON).get? 1 =
      some (Event.log red "Error attaching document to the Content Manager record.") :=
  c7_download_error_color cfg0 envAllErr (JsValue.str "tok-abc") (JsValue.str "AGR-123")
    (JsValue.str "/Records/42") gblCreateRecordJSON "a.pdf" [37, 80, 68, 70]
    "download boom" "refresh boom" "create boom" "upload boom" "attach boom"
    rfl rfl rfl rfl rfl

/-- C8: the OAuth refresh request is a POST to the Adobe Sign base URL
followed by /oauth/refresh with the refresh_token, client_id,
client_secret and grant_type=refresh_token query parameters, a
form-urlencoded content type and no body; on success the run reads the
access_token member of the response body and continues into the
download stage, whose request carries that token in its bearer
Authorization header. -/
theorem c8_refresh_request (cfg : Config) (env : Env)
    (gblAgreementId data accessToken : JsValue)
    (h1 : env.refreshResult = Except.ok data)
    (h2 : getProp data "access_token" = Except.ok accessToken) :
    refreshTokenConfig cfg =
      { method := "POST",
        url := cfg.adobeSignBaseUrl ++ "/oauth/refresh?refresh_token="
          ++ cfg.adobeSignRefreshToken ++ "&client_id=" ++ cfg.adobeSignClientId
          ++ "&client_secret=" ++ cfg.adobeSignClientSecret ++ "&grant_type=refresh_token",
        headers := [("Content-Type", "application/x-www-form-urlencoded")],
        data := none,
        responseType := none } ∧
    refreshAdobeAccessToken cfg env gblAgreementId =
      Event.http (refreshTokenConfig cfg) ::
      Event.log green "Adobe Sign Access Token updated." ::
      downloadAgreementDocument cfg env accessToken gblAgreementId ∧
    (downloadAgreementDocument cfg env accessToken gblAgreementId).head? =
      some (Event.http (downloadAgreementConfig cfg accessToken gblAgreementId)) ∧
    (downloadAgreementConfig cfg accessToken gblAgreementId).headers =
      [("Authorization", "Bearer " ++ jsToString accessToken)] := by
  refine ⟨rfl, ?_, ?_, rfl⟩
  · simp [refreshAdobeAccessToken, h1, h2]
  · simp [downloadAgreementDocument]

/-- Witness for C8 at a concrete run. -/
theorem c8_refresh_request_witness :
    refreshTokenConfig cfg0 =
      { method := "POST",
        url := cfg0.adobeSignBaseUrl ++ "/oauth/refresh?refresh_token="
          ++ cfg0.adobeSignRefreshToken ++ "&client_id=" ++ cfg0.adobeSignClientId
          ++ "&client_secret=" ++ cfg0.adobeSignClientSecret ++ "&grant_type=refresh_token",
        headers := [("Content-Type", "application/x-www-form-urlencoded")],
        data := none,
        responseType := none } ∧
    refreshAdobeAccessToken cfg0 envAllOk (JsValue.str "AGR-123") =
      Event.http (refreshTokenConfig cfg0) ::
      Event.log green "Adobe Sign Access Token updated." ::
      downloadAgreementDocument cfg0 envAllOk (JsValue.str "tok-abc") (JsValue.str "AGR-123") ∧
    (downloadAgreementDocument cfg0 envAllOk (JsValue.str "tok-abc")
        (JsValue.str "AGR-123")).head? =
      some (Event.http (downloadAgreementConfig cfg0 (JsValue.str "tok-abc")
        (JsValue.str "AGR-123"))) ∧
    (downloadAgreementConfig cfg0 (JsValue.str "tok-abc") (JsValue.str "AGR-123")).headers =
      [("Authorization", "Bearer " ++ jsToString (JsValue.str "tok-abc"))] :=
  c8_refresh_request cfg0 envAllOk (JsValue.str "AGR-123")
    (JsValue.obj [("access_token", JsValue.str "tok-abc")]) (JsValue.str "tok-abc") rfl rfl

/-- A concrete environment whose record-creation response carries a
Results member that is a non-empty string rather than an array. -/
def env9 : Env where
  refreshResult := Except.ok (JsValue.obj [("access_token", JsValue.str "tok-abc")])
  downloadResult := Except.ok [37, 80, 68, 70]
  createResult := Except.ok (JsValue.obj [("Results", JsValue.str "x")])
  uploadResult := Except.ok ()
  attachResult := Except.ok (JsValue.obj [])
  uuid := "u"

/-- C9 counterexample: with a record-creation response whose Results
member is the non-empty string "x" — a body lacking Results[0].Uri with
Results not an array — the access does not throw: JavaScript indexes the
string, the member access on the resulting one-character string yields
undefined, no creation error is logged, and the upload and attach stages
are both invoked (with an undefined Uri that JSON.stringify then
omits). -/
theorem c9_counterexample :
    extractResultsUri (JsValue.obj [("Results", JsValue.str "x")]) =
      Except.ok JsValue.undefined ∧
    createRecord cfg0 env9 gblCreateRecordJSON [37, 80, 68, 70] =
      [Event.http (createRecordConfig cfg0 gblCreateRecordJSON),
       Event.log green "New Content Manager record successfully created.",
       Event.webdavPut cfg0.contentManagerWedDAVUrl cfg0.contentManagerUsername
         cfg0.contentManagerPassword ("/" ++ generatedFilename env9) [37, 80, 68, 70],
       Event.log green "Document successfully transferred to WebDAV folder.",
       Event.http (attachDocumentConfig cfg0 (JsValue.obj [("Uri", JsValue.undefined),
         ("RecordFilePath", JsValue.str (generatedFilename env9))])),
       Event.log green "Document successfully attached to the Content Manager record."] :=
  ⟨rfl, rfl⟩

/-- C9 amended: if the record-creation call succeeds at the HTTP level
but the access of Results[0].Uri throws — as it does when Results is
missing, null, an empty array, a number or a boolean, though not when
Results is a non-empty string, which JavaScript indexes to a character —
the thrown error is caught by the record-creation error handler, logged
as the creation error, and the upload and attach stages are never
invoked. -/
theorem c9_access_error_caught (cfg : Config) (env : Env) (jsonData : JsValue)
    (doc : List Nat) (data : JsValue) (e : JsError)
    (h1 : env.createResult = Except.ok data)
    (h2 : extractResultsUri data = Except.error e) :
    createRecord cfg env jsonData doc =
      [Event.http (createRecordConfig cfg jsonData),
       Event.log green "New Content Manager record successfully created.",
       Event.log red "Error creating Content Manager record.",
       Event.logError (RunError.thrown e)] ∧
    (∀ fields : List (String × JsValue), fields.lookup "Results" = none →
        extractResultsUri (JsValue.obj fields) = Except.error JsError.typeError) ∧
    (∀ fields : List (String × JsValue), fields.lookup "Results" = some JsValue.null →
        extractResultsUri (JsValue.obj fields) = Except.error JsError.typeError) ∧
    (∀ fields : List (String × JsValue),
        fields.lookup "Results" = some (JsValue.arr []) →
        extractResultsUri (JsValue.obj fields) = Except.error JsError.typeError) ∧
    (∀ (fields : List (String × JsValue)) (n : Int),
        fields.lookup "Results" = some (JsValue.num n) →
        extractResultsUri (JsValue.obj fields) = Except.error JsError.typeError) ∧
    (∀ (fields : List (String × JsValue)) (b : Bool),
        fields.lookup "Results" = some (JsValue.bool b) →
        extractResultsUri (JsValue.obj fields) = Except.error JsError.typeError) := by
  refine ⟨?_, ?_, ?_, ?_, ?_, ?_⟩
  · simp [createRecord, h1, h2]
  · intro fields h
    simp only [extractResultsUri, getProp, h, Option.getD]
    rfl
  · intro fields h
    simp only [extractResultsUri, getProp, h, Option.getD]
    rfl
  · intro fields h
    simp only [extractResultsUri, getProp, h, Option.getD]
    rfl
  · intro fields n h
    simp only [extractResultsUri, getProp, h, Option.getD]
    rfl
  · intro fields b h
    simp only [extractResultsUri, getProp, h, Option.getD]
    rfl

/-- Witness for the amended C9 at a concrete response body with Results
missing. -/
theorem c9_access_error_caught_witness :
    createRecord cfg0 { envAllOk with createResult := Except.ok (JsValue.obj []) }
        gblCreateRecordJSON [37, 80, 68, 70] =
      [Event.http (createRecordConfig cfg0 gblCreateRecordJSON),
       Event.log green "New Content Manager record successfully created.",
       Event.log red "Error creating Content Manager record.",
       Event.logError (RunError.thrown JsError.typeError)] ∧
    (∀ fields : List (String × JsValue), fields.lookup "Results" = none →
        extractResultsUri (JsValue.obj fields) = Except.error JsError.typeError) ∧
    (∀ fields : List (String × JsValue), fields.lookup "Results" = some JsValue.null →
        extractResultsUri (JsValue.obj fields) = Except.error JsError.typeError) ∧
    (∀ fields : List (String × JsValue),
        fields.lookup "Results" = some (JsValue.arr []) →
        extractResultsUri (JsValue.obj fields) = Except.error JsError.typeError) ∧
    (∀ (fields : List (String × JsValue)) (n : Int),
        fields.lookup "Results" = some (JsValue.num n) →
        extractResultsUri (JsValue.obj fields) = Except.error JsError.typeError) ∧
    (∀ (fields : List (String × JsValue)) (b : Bool),
        fields.lookup "Results" = some (JsValue.bool b) →
        extractResultsUri (JsValue.obj fields) = Except.error JsError.typeError) :=
  c9_access_error_caught cfg0 { envAllOk with createResult := Except.ok (JsValue.obj []) }
    gblCreateRecordJSON [37, 80, 68, 70] (JsValue.obj []) JsError.typeError rfl rfl

/-- The webhook fixture contents used for the C10 witness. -/
def fixture0 : String := "\x7b\"agreement\":\x7b\"id\":\"AGR-123\"\x7d\x7d"

/-- C10: the fixture file is read and parsed, and the agreement id
extracted, before any stage runs: a missing file aborts the process with
a read error and no event, contents that are not valid JSON abort it
with a parse error and no event, and when all three synchronous startup
steps succeed the produced run starts with the OAuth refresh request as
its first event. -/
theorem c10_startup_order (cfg : Config) (env : Env) (s : String)
    (j agreement gblAgreementId : JsValue)
    (hp : parseJson s = some j)
    (ha : getProp j "agreement" = Except.ok agreement)
    (hi : getProp agreement "id" = Except.ok gblAgreementId) :
    moduleMain cfg env none = Except.error StartupError.fileReadError ∧
    (∀ s2 : String, parseJson s2 = none →
        moduleMain cfg env (some s2) = Except.error StartupError.jsonParseError) ∧
    moduleMain cfg env (some s) = Except.ok (refreshAdobeAccessToken cfg env gblAgreementId) ∧
    (refreshAdobeAccessToken cfg env gblAgreementId).head? =
      some (Event.http (refreshTokenConfig cfg)) := by
  refine ⟨rfl, ?_, ?_, ?_⟩
  · intro s2 h
    simp [moduleMain, h]
  · simp [moduleMain, hp, ha, hi]
  · simp [refreshAdobeAccessToken]

/-- Witness for C10 at the concrete fixture contents. -/
theorem c10_startup_order_witness :
    moduleMain cfg0 envAllOk none = Except.error StartupError.fileReadError ∧
    (∀ s2 : String, parseJson s2 = none →
        moduleMain cfg0 envAllOk (some s2) = Except.error StartupError.jsonParseError) ∧
    moduleMain cfg0 envAllOk (some fixture0) =
      Except.ok (refreshAdobeAccessToken cfg0 envAllOk (JsValue.str "AGR-123")) ∧
    (refreshAdobeAccessToken cfg0 envAllOk (JsValue.str "AGR-123")).head? =
      some (Event.http (refreshTokenConfig cfg0)) :=
  c10_startup_order cfg0 envAllOk fixture0
    (JsValue.obj [("agreement", JsValue.obj [("id", JsValue.str "AGR-123")])])
    (JsValue.obj [("id", JsValue.str "AGR-123")]) (JsValue.str "AGR-123")
    rfl rfl rfl

end AdobeSignCM
